import Mathlib

/-!
Verification of the task recovery and state-consistency subsystem of
Auto-Claude (apps/backend/services/task_recovery.py and task_state.py).

The Python code is shallowly embedded: filesystem and clock effects are
abstracted into explicit environment records whose fields hold the values
the code would observe (lock acquisition result, worktree existence,
activity marker existence and modification time, current time), and the
state record mutations performed by each function are returned as values.
Timestamps are modelled as integer seconds; ISO-8601 parsing is modelled
by an arbitrary parse function returning an optional timestamp, matching
the code, which only distinguishes a successful parse from a failed one
and then compares time differences against a fixed threshold.
-/

/-- The TaskState dataclass of task_state.py: task identifier, status
string, recovery attempt counter, last activity timestamp string, and an
optional failure reason. -/
structure TaskState where
  task_id : String
  status : String
  recovery_attempts : Int
  last_activity : String
  failure_reason : Option String
deriving DecidableEq, Repr

/-- MAX_RECOVERY_ATTEMPTS from task_recovery.py. -/
def MAX_RECOVERY_ATTEMPTS : Int := 5

/-- ZOMBIE_THRESHOLD_HOURS from task_recovery.py. -/
def ZOMBIE_THRESHOLD_HOURS : Int := 2

/-- timedelta(hours=ZOMBIE_THRESHOLD_HOURS) in seconds. -/
def zombieThresholdSeconds : Int := ZOMBIE_THRESHOLD_HOURS * 3600

def RECOVERY_ACTION_NONE : String := "no_action"
def RECOVERY_ACTION_RESET_TO_READY : String := "reset_to_ready"
def RECOVERY_ACTION_RESET_TO_BACKLOG : String := "reset_to_backlog"
def RECOVERY_ACTION_UPDATE_TO_CODING : String := "update_to_coding"
def RECOVERY_ACTION_MARK_FAILED : String := "mark_failed"
def RECOVERY_ACTION_ZOMBIE_CLEANUP : String := "zombie_cleanup"
def RECOVERY_ACTION_LOCK_FAILED : String := "lock_failed"
def RECOVERY_ACTION_NO_STATE : String := "no_state"

def START_CODING_SUCCESS : String := "success"
def START_CODING_LOCK_FAILED : String := "lock_failed"
def START_CODING_NO_STATE : String := "no_state"
def START_CODING_WRONG_STATUS : String := "wrong_status"
def START_CODING_WORKTREE_FAILED : String := "worktree_failed"
def START_CODING_MAX_RETRIES : String := "max_retries"

/-- Environment observed by recover_if_stuck and is_zombie during one
call: whether the task lock was acquired, whether the worktree directory
exists (the result of worktree_exists), whether the activity marker file
exists, the marker modification time (none models an OSError while
reading it), the current time in seconds, and the string returned by
utc_now() for last_activity updates. -/
structure FsEnv where
  lockAcquired : Bool
  hasWorktree : Bool
  markerExists : Bool
  markerMtime : Option Int
  now : Int
  nowStr : String
deriving DecidableEq, Repr

/-- is_zombie from task_recovery.py. parse models
datetime.fromisoformat followed by UTC normalization; a none result
models ValueError or TypeError. The code returns True on parse failure;
otherwise it is not a zombie when the last activity is strictly more
recent than the threshold; otherwise an absent marker means zombie, an
unreadable marker means zombie, and a readable marker is compared
against the same threshold with a non-strict inequality. -/
def is_zombie (parse : String → Option Int) (state : TaskState) (env : FsEnv) : Bool :=
  match parse state.last_activity with
  | none => true
  | some lastActivity =>
    if env.now - lastActivity < zombieThresholdSeconds then
      false
    else if !env.markerExists then
      true
    else
      match env.markerMtime with
      | none => true
      | some mtime =>
        if env.now - mtime ≥ zombieThresholdSeconds then true else false

/-- recover_if_stuck from task_recovery.py, acting on the loaded state
record (none models an absent or unreadable state file). Returns the
action string and the record as persisted after the call (unchanged when
nothing was saved). The branch structure follows the source: lock
failure, missing state, max attempts check, terminal status check, then
the four recovery cases in order. -/
def recover_if_stuck (parse : String → Option Int) (env : FsEnv)
    (loaded : Option TaskState) : String × Option TaskState :=
  if !env.lockAcquired then
    (RECOVERY_ACTION_LOCK_FAILED, loaded)
  else
    match loaded with
    | none => (RECOVERY_ACTION_NO_STATE, none)
    | some state =>
      if state.recovery_attempts ≥ MAX_RECOVERY_ATTEMPTS then
        if state.status ≠ "failed" then
          (RECOVERY_ACTION_MARK_FAILED,
            some { state with
              status := "failed",
              failure_reason := some "Maximum recovery attempts (5) exceeded",
              last_activity := env.nowStr })
        else
          (RECOVERY_ACTION_NONE, some state)
      else if state.status = "done" ∨ state.status = "failed" then
        (RECOVERY_ACTION_NONE, some state)
      else if state.status = "coding" ∧ !env.hasWorktree then
        (RECOVERY_ACTION_RESET_TO_READY,
          some { state with
            status := "ready",
            recovery_attempts := state.recovery_attempts + 1,
            last_activity := env.nowStr })
      else if state.status = "coding" ∧ env.hasWorktree ∧ is_zombie parse state env then
        (RECOVERY_ACTION_ZOMBIE_CLEANUP,
          some { state with
            status := "ready",
            recovery_attempts := state.recovery_attempts + 1,
            last_activity := env.nowStr })
      else if state.status = "ready" ∧ env.hasWorktree then
        (RECOVERY_ACTION_UPDATE_TO_CODING,
          some { state with
            status := "coding",
            last_activity := env.nowStr })
      else if state.status = "planning" ∧ is_zombie parse state env then
        (RECOVERY_ACTION_RESET_TO_BACKLOG,
          some { state with
            status := "backlog",
            recovery_attempts := state.recovery_attempts + 1,
            last_activity := env.nowStr })
      else
        (RECOVERY_ACTION_NONE, some state)

/-- Environment observed by start_coding during one call: whether the
lock was acquired, whether the worktree creation performed by
the helper that shells out to git succeeded, and the utc_now() string. -/
structure StartEnv where
  lockAcquired : Bool
  worktreeCreateOk : Bool
  nowStr : String
deriving DecidableEq, Repr

/-- start_coding from task_recovery.py, acting on the loaded state
record. Returns the result string and the record as persisted. -/
def start_coding (env : StartEnv) (loaded : Option TaskState) :
    String × Option TaskState :=
  if !env.lockAcquired then
    (START_CODING_LOCK_FAILED, loaded)
  else
    match loaded with
    | none => (START_CODING_NO_STATE, none)
    | some state =>
      if state.recovery_attempts ≥ MAX_RECOVERY_ATTEMPTS then
        (START_CODING_MAX_RETRIES, some state)
      else if state.status ≠ "ready" then
        (START_CODING_WRONG_STATUS, some state)
      else if !env.worktreeCreateOk then
        (START_CODING_WORKTREE_FAILED,
          some { state with
            recovery_attempts := state.recovery_attempts + 1,
            last_activity := env.nowStr })
      else
        (START_CODING_SUCCESS,
          some { state with
            status := "coding",
            last_activity := env.nowStr })

/-!
JSON model for the state store (task_state.py). save_state serializes
asdict(state) with json.dumps and load_state reads it back with
json.loads; the dumps/loads pair of the Python standard library is
external to the repository, so file contents are modelled at the level
of JSON values. Python performs no type checking on the field values it
extracts, so the loaded record carries raw JSON values.
-/

/-- A JSON value as produced by json.loads. -/
inductive JValue where
  | null
  | bool (b : Bool)
  | num (n : Int)
  | str (s : String)
  | arr (xs : List JValue)
  | obj (fields : List (String × JValue))
deriving Repr

/-- Dictionary lookup with the json.loads duplicate-key behaviour: the
last occurrence of a key wins. -/
def jlookup (fields : List (String × JValue)) (k : String) : Option JValue :=
  match fields with
  | [] => none
  | (k0, v) :: rest =>
    match jlookup rest k with
    | some r => some r
    | none => if k0 = k then some v else none

/-- The TaskState object as constructed by load_state: Python does not
validate the types of the extracted values, so every field is a raw JSON
value; a Python None in failure_reason is represented as JValue.null. -/
structure DynTaskState where
  task_id : JValue
  status : JValue
  recovery_attempts : JValue
  last_activity : JValue
  failure_reason : JValue
deriving Repr

/-- The content of the state file as seen by load_state: absent file,
syntactically invalid JSON (json.JSONDecodeError), or a parsed value. -/
inductive FileContent where
  | absent
  | invalid
  | valid (v : JValue)
deriving Repr

/-- Field extraction of load_state: subscripting a non-object raises
TypeError and a missing key raises KeyError, both caught and turned into
None; failure_reason uses dict.get with a None default. -/
def load_from_json (v : JValue) : Option DynTaskState :=
  match v with
  | JValue.obj fields =>
    match jlookup fields "task_id", jlookup fields "status",
          jlookup fields "recovery_attempts", jlookup fields "last_activity" with
    | some t, some s, some r, some l =>
      some { task_id := t, status := s, recovery_attempts := r,
             last_activity := l,
             failure_reason := (jlookup fields "failure_reason").getD JValue.null }
    | _, _, _, _ => none
  | _ => none

/-- load_state from task_state.py: an absent file gives None, corrupt
JSON gives None, and otherwise the fields are extracted from the parsed
value with every exception converted to None. -/
def load_state (c : FileContent) : Option DynTaskState :=
  match c with
  | FileContent.absent => none
  | FileContent.invalid => none
  | FileContent.valid v => load_from_json v

/-- save_state from task_state.py, modelled as the JSON value written
to the state file: asdict(state) in dataclass field order, with a None
failure_reason serialized as JSON null. -/
def save_state (state : TaskState) : JValue :=
  JValue.obj
    [("task_id", JValue.str state.task_id),
     ("status", JValue.str state.status),
     ("recovery_attempts", JValue.num state.recovery_attempts),
     ("last_activity", JValue.str state.last_activity),
     ("failure_reason",
       match state.failure_reason with
       | none => JValue.null
       | some r => JValue.str r)]

/-- The JSON representation of each field of a well-typed TaskState,
used to compare a loaded record with the original. -/
def toDyn (state : TaskState) : DynTaskState :=
  { task_id := JValue.str state.task_id,
    status := JValue.str state.status,
    recovery_attempts := JValue.num state.recovery_attempts,
    last_activity := JValue.str state.last_activity,
    failure_reason :=
      match state.failure_reason with
      | none => JValue.null
      | some r => JValue.str r }

/-!
Path-level filesystem model for touch_activity and worktree_exists.
A path is its list of components and the filesystem is the list of
existing paths (files and directories alike, since Path.exists in
Python is true for both).
-/

/-- A filesystem path as a list of components. -/
abbrev FsPath := List String

/-- The set of existing paths, as observed by Path.exists. -/
abbrev Fs := List FsPath

/-- Path.exists over the path-set model. -/
def path_exists (fs : Fs) (p : FsPath) : Bool :=
  fs.contains p

/-- worktree_exists from task_recovery.py: an existence check of
base_dir/.worktrees/task_id. -/
def worktree_exists (fs : Fs) (base_dir : FsPath) (task_id : String) : Bool :=
  path_exists fs (base_dir ++ [".worktrees", task_id])

/-- touch_activity from task_recovery.py: on success, mkdir with
parents creates base_dir/.worktrees and base_dir/.worktrees/task_id,
then touch creates the .task_activity marker file; ok models whether
the operation completed without OSError. -/
def touch_activity (fs : Fs) (base_dir : FsPath) (task_id : String)
    (ok : Bool) : Bool × Fs :=
  if ok then
    (true,
      (base_dir ++ [".worktrees"]) ::
      (base_dir ++ [".worktrees", task_id]) ::
      (base_dir ++ [".worktrees", task_id, ".task_activity"]) :: fs)
  else
    (false, fs)

/-!
Concrete inputs used by witnesses and counterexamples.
-/

/-- A parse function that accepts every timestamp string as time 0. -/
def exParse : String → Option Int := fun _ => some 0

def exState : TaskState :=
  { task_id := "T1", status := "coding", recovery_attempts := 0,
    last_activity := "2024-01-01T00:00:00+00:00", failure_reason := none }

def exStateReady : TaskState :=
  { task_id := "T4", status := "ready", recovery_attempts := 0,
    last_activity := "2024-01-01T00:00:00+00:00", failure_reason := none }

def exStateDone : TaskState :=
  { task_id := "T7", status := "done", recovery_attempts := 0,
    last_activity := "2024-01-01T00:00:00+00:00", failure_reason := none }

def exStateMax : TaskState :=
  { task_id := "T3", status := "coding", recovery_attempts := 5,
    last_activity := "2024-01-01T00:00:00+00:00", failure_reason := none }

def exStateDoneMax : TaskState :=
  { task_id := "T8", status := "done", recovery_attempts := 5,
    last_activity := "2024-01-01T00:00:00+00:00", failure_reason := none }

def envNoWorktree : FsEnv :=
  { lockAcquired := true, hasWorktree := false, markerExists := false,
    markerMtime := none, now := 0, nowStr := "t-now" }

def envWithWorktree : FsEnv :=
  { lockAcquired := true, hasWorktree := true, markerExists := false,
    markerMtime := none, now := 0, nowStr := "t-now" }

def envStartFail : StartEnv :=
  { lockAcquired := true, worktreeCreateOk := false, nowStr := "t-now" }

/-- C4: a task with recovery_attempts below the maximum, status "coding"
and no worktree directory is reset: recover_if_stuck returns
"reset_to_ready" and persists the record with status "ready",
recovery_attempts incremented by exactly one and last_activity set to
the current time; all other fields are unchanged. -/
theorem recover_coding_without_worktree_resets_to_ready
    (parse : String → Option Int) (env : FsEnv) (state : TaskState)
    (hLock : env.lockAcquired = true)
    (hAtt : state.recovery_attempts < MAX_RECOVERY_ATTEMPTS)
    (hStatus : state.status = "coding")
    (hWt : env.hasWorktree = false) :
    recover_if_stuck parse env (some state) =
      (RECOVERY_ACTION_RESET_TO_READY,
        some { state with
          status := "ready",
          recovery_attempts := state.recovery_attempts + 1,
          last_activity := env.nowStr }) := by
  have hA : ¬ state.recovery_attempts ≥ MAX_RECOVERY_ATTEMPTS := not_le.mpr hAtt
  simp [recover_if_stuck, hLock, hStatus, hWt, hA]

theorem recover_coding_without_worktree_resets_to_ready_witness :
    recover_if_stuck exParse envNoWorktree (some exState) =
      (RECOVERY_ACTION_RESET_TO_READY,
        some { exState with
          status := "ready",
          recovery_attempts := exState.recovery_attempts + 1,
          last_activity := envNoWorktree.nowStr }) :=
  recover_coding_without_worktree_resets_to_ready exParse envNoWorktree exState
    rfl (by decide) rfl rfl

/-- C5: a task with recovery_attempts below the maximum, status "ready"
and a worktree directory present is synchronized: recover_if_stuck
returns "update_to_coding" and persists the record with status "coding"
and last_activity updated, while task_id, recovery_attempts and
failure_reason are unchanged. -/
theorem recover_ready_with_worktree_updates_to_coding
    (parse : String → Option Int) (env : FsEnv) (state : TaskState)
    (hLock : env.lockAcquired = true)
    (hAtt : state.recovery_attempts < MAX_RECOVERY_ATTEMPTS)
    (hStatus : state.status = "ready")
    (hWt : env.hasWorktree = true) :
    recover_if_stuck parse env (some state) =
      (RECOVERY_ACTION_UPDATE_TO_CODING,
        some { state with
          status := "coding",
          last_activity := env.nowStr }) := by
  have hA : ¬ state.recovery_attempts ≥ MAX_RECOVERY_ATTEMPTS := not_le.mpr hAtt
  simp [recover_if_stuck, hLock, hStatus, hWt, hA]

theorem recover_ready_with_worktree_updates_to_coding_witness :
    recover_if_stuck exParse envWithWorktree (some exStateReady) =
      (RECOVERY_ACTION_UPDATE_TO_CODING,
        some { exStateReady with
          status := "coding",
          last_activity := envWithWorktree.nowStr }) :=
  recover_ready_with_worktree_updates_to_coding exParse envWithWorktree exStateReady
    rfl (by decide) rfl rfl

/-- C6: when a state record is present with recovery_attempts below the
maximum and status "ready", and worktree creation fails, start_coding
returns "worktree_failed" and persists the record with
recovery_attempts incremented by exactly one and last_activity updated,
the status remaining "ready". -/
theorem start_coding_worktree_failure
    (env : StartEnv) (state : TaskState)
    (hLock : env.lockAcquired = true)
    (hAtt : state.recovery_attempts < MAX_RECOVERY_ATTEMPTS)
    (hStatus : state.status = "ready")
    (hWt : env.worktreeCreateOk = false) :
    start_coding env (some state) =
      (START_CODING_WORKTREE_FAILED,
        some { state with
          recovery_attempts := state.recovery_attempts + 1,
          last_activity := env.nowStr }) ∧
    ({ state with
        recovery_attempts := state.recovery_attempts + 1,
        last_activity := env.nowStr } : TaskState).status = "ready" := by
  have hA : ¬ state.recovery_attempts ≥ MAX_RECOVERY_ATTEMPTS := not_le.mpr hAtt
  constructor
  · simp [start_coding, hLock, hStatus, hWt, hA]
  · simpa using hStatus

theorem start_coding_worktree_failure_witness :
    start_coding envStartFail (some exStateReady) =
      (START_CODING_WORKTREE_FAILED,
        some { exStateReady with
          recovery_attempts := exStateReady.recovery_attempts + 1,
          last_activity := envStartFail.nowStr }) ∧
    ({ exStateReady with
        recovery_attempts := exStateReady.recovery_attempts + 1,
        last_activity := envStartFail.nowStr } : TaskState).status = "ready" :=
  start_coding_worktree_failure envStartFail exStateReady rfl (by decide) rfl rfl

/-- C1 counterexample: a record with status "done" and
recovery_attempts already at the maximum IS mutated by
recover_if_stuck: the max-attempts check runs before the terminal
status check and, since the status is not "failed", marks the record
failed. This refutes the claim that every record with status "done" or
"failed" is left unchanged regardless of recovery_attempts. -/
theorem recover_done_at_max_attempts_is_mutated :
    exStateDoneMax.status = "done" ∧
    (recover_if_stuck exParse envNoWorktree (some exStateDoneMax)).2 ≠ some exStateDoneMax ∧
    recover_if_stuck exParse envNoWorktree (some exStateDoneMax) =
      (RECOVERY_ACTION_MARK_FAILED,
        some { exStateDoneMax with
          status := "failed",
          failure_reason := some "Maximum recovery attempts (5) exceeded",
          last_activity := envNoWorktree.nowStr }) := by
  refine ⟨rfl, ?_, by rfl⟩
  decide

/-- C1 (amended): a record with status "failed", or with status "done"
and recovery_attempts below the maximum, is never mutated by
recover_if_stuck: the persisted record equals the loaded one in every
field. -/
theorem recover_terminal_unchanged
    (parse : String → Option Int) (env : FsEnv) (state : TaskState)
    (h : state.status = "failed" ∨
         (state.status = "done" ∧ state.recovery_attempts < MAX_RECOVERY_ATTEMPTS)) :
    (recover_if_stuck parse env (some state)).2 = some state := by
  by_cases hL : env.lockAcquired
  · rcases h with hF | ⟨hD, hA⟩
    · by_cases hM : state.recovery_attempts ≥ MAX_RECOVERY_ATTEMPTS
      · simp [recover_if_stuck, hL, hM, hF]
      · simp [recover_if_stuck, hL, hM, hF]
    · have hM : ¬ state.recovery_attempts ≥ MAX_RECOVERY_ATTEMPTS := not_le.mpr hA
      simp [recover_if_stuck, hL, hM, hD]
  · simp [recover_if_stuck, hL]

theorem recover_terminal_unchanged_witness :
    (recover_if_stuck exParse envNoWorktree (some exStateDone)).2 = some exStateDone :=
  recover_terminal_unchanged exParse envNoWorktree exStateDone
    (Or.inr ⟨rfl, by decide⟩)

/-- C2: for a record with recovery_attempts at or above the maximum and
a status other than "failed", recover_if_stuck returns "mark_failed"
and persists the record with status "failed", a failure_reason naming
the limit and recovery_attempts unchanged; every subsequent call on the
persisted record (under an acquired lock, with any parse function and
environment) returns "no_action" and leaves the record unchanged, so
the status is permanently "failed". -/
theorem recover_max_attempts_marks_failed_permanently
    (parse : String → Option Int) (env : FsEnv) (state : TaskState)
    (hLock : env.lockAcquired = true)
    (hAtt : state.recovery_attempts ≥ MAX_RECOVERY_ATTEMPTS)
    (hStatus : state.status ≠ "failed") :
    ∃ s2 : TaskState,
      recover_if_stuck parse env (some state) = (RECOVERY_ACTION_MARK_FAILED, some s2) ∧
      s2.status = "failed" ∧
      s2.failure_reason = some "Maximum recovery attempts (5) exceeded" ∧
      s2.recovery_attempts = state.recovery_attempts ∧
      ∀ (parse2 : String → Option Int) (env2 : FsEnv), env2.lockAcquired = true →
        recover_if_stuck parse2 env2 (some s2) = (RECOVERY_ACTION_NONE, some s2) := by
  refine ⟨{ state with
      status := "failed",
      failure_reason := some "Maximum recovery attempts (5) exceeded",
      last_activity := env.nowStr }, ?_, rfl, rfl, rfl, ?_⟩
  · simp [recover_if_stuck, hLock, hAtt, hStatus]
  · intro parse2 env2 hL2
    simp [recover_if_stuck, hL2, hAtt]

theorem recover_max_attempts_marks_failed_permanently_witness :
    ∃ s2 : TaskState,
      recover_if_stuck exParse envNoWorktree (some exStateMax) =
        (RECOVERY_ACTION_MARK_FAILED, some s2) ∧
      s2.status = "failed" ∧
      s2.failure_reason = some "Maximum recovery attempts (5) exceeded" ∧
      s2.recovery_attempts = exStateMax.recovery_attempts ∧
      ∀ (parse2 : String → Option Int) (env2 : FsEnv), env2.lockAcquired = true →
        recover_if_stuck parse2 env2 (some s2) = (RECOVERY_ACTION_NONE, some s2) :=
  recover_max_attempts_marks_failed_permanently exParse envNoWorktree exStateMax
    rfl (by decide) (by decide)

/-- C3: when last_activity parses, is_zombie returns false exactly when
the state timestamp is strictly within the 2 hour threshold, or the
activity marker exists, is readable and its modification time is
strictly within the threshold; in every other case (including a
difference of exactly 2 hours on either signal, an absent marker or an
unreadable marker) it returns true; when last_activity does not parse,
is_zombie returns true. -/
theorem is_zombie_characterization
    (parse : String → Option Int) (state : TaskState) (env : FsEnv) :
    (∀ la : Int, parse state.last_activity = some la →
      (is_zombie parse state env = false ↔
        (env.now - la < zombieThresholdSeconds ∨
          (env.markerExists = true ∧
            ∃ mt : Int, env.markerMtime = some mt ∧
              env.now - mt < zombieThresholdSeconds)))) ∧
    (parse state.last_activity = none → is_zombie parse state env = true) := by
  constructor
  · intro la hla
    simp only [is_zombie, hla]
    by_cases h1 : env.now - la < zombieThresholdSeconds
    · simp [h1]
    · rw [if_neg h1]
      cases hm : env.markerExists with
      | false => simp [hm, h1]
      | true =>
        cases hmt : env.markerMtime with
        | none => simp [hmt, h1]
        | some mt =>
          by_cases h2 : env.now - mt ≥ zombieThresholdSeconds
          · have h3 : ¬ env.now - mt < zombieThresholdSeconds := not_lt.mpr h2
            simp [hmt, h1, h2, h3]
          · have h3 : env.now - mt < zombieThresholdSeconds := not_le.mp h2
            simp [hmt, h1, if_neg h2, h3]
  · intro h
    simp [is_zombie, h]

theorem is_zombie_characterization_witness :
    is_zombie exParse exState envNoWorktree = false :=
  ((is_zombie_characterization exParse exState envNoWorktree).1 0 rfl).mpr
    (Or.inl (by decide))

/-- A parsed JSON value lacking at least one of the four required
fields of the state schema; a value that is not an object has no fields
at all (subscripting it raises in Python, which load_state converts to
None like a missing key). -/
def missing_required_field (v : JValue) : Prop :=
  match v with
  | JValue.obj fields =>
    jlookup fields "task_id" = none ∨ jlookup fields "status" = none ∨
    jlookup fields "recovery_attempts" = none ∨ jlookup fields "last_activity" = none
  | _ => True

/-- C7: loading the value written by save_state returns a record whose
every field is the representation of the original, including a null
failure_reason for an original None; the representation is injective,
so the loaded record determines the original state exactly. -/
theorem save_load_round_trip (state : TaskState) :
    load_state (FileContent.valid (save_state state)) = some (toDyn state) ∧
    ∀ state2 : TaskState, toDyn state = toDyn state2 → state = state2 := by
  constructor
  · cases hf : state.failure_reason <;>
      simp [load_state, load_from_json, save_state, toDyn, jlookup, hf]
  · intro state2 h
    cases state with
    | mk t s r l f =>
      cases state2 with
      | mk t2 s2 r2 l2 f2 =>
        cases f <;> cases f2 <;> simp_all [toDyn]

theorem save_load_round_trip_witness :
    load_state (FileContent.valid (save_state exState)) = some (toDyn exState) ∧
    exState = exState :=
  ⟨(save_load_round_trip exState).1, (save_load_round_trip exState).2 exState rfl⟩

/-- C8: load_state returns None for an absent file, for syntactically
invalid JSON, and for valid JSON missing any required field; being a
total function into an option type, it never raises to the caller. -/
theorem load_state_fails_soft :
    load_state FileContent.absent = none ∧
    load_state FileContent.invalid = none ∧
    ∀ v : JValue, missing_required_field v → load_state (FileContent.valid v) = none := by
  refine ⟨rfl, rfl, ?_⟩
  intro v h
  cases v with
  | obj fields =>
    cases e1 : jlookup fields "task_id" <;>
      cases e2 : jlookup fields "status" <;>
        cases e3 : jlookup fields "recovery_attempts" <;>
          cases e4 : jlookup fields "last_activity" <;>
            simp_all [load_state, load_from_json, missing_required_field]
  | null => rfl
  | bool b => rfl
  | num n => rfl
  | str s => rfl
  | arr xs => rfl

theorem load_state_fails_soft_witness :
    load_state (FileContent.valid (JValue.num 3)) = none :=
  load_state_fails_soft.2.2 (JValue.num 3) trivial

/-- C10: a JSON object containing the four required fields but lacking
the failure_reason key loads successfully with a null failure_reason,
while an object lacking any one of the four required fields loads as
None. -/
theorem load_state_failure_reason_optional (fields : List (String × JValue)) :
    (((jlookup fields "task_id").isSome = true ∧
      (jlookup fields "status").isSome = true ∧
      (jlookup fields "recovery_attempts").isSome = true ∧
      (jlookup fields "last_activity").isSome = true ∧
      jlookup fields "failure_reason" = none) →
      ∃ d : DynTaskState,
        load_state (FileContent.valid (JValue.obj fields)) = some d ∧
        d.failure_reason = JValue.null) ∧
    (jlookup fields "task_id" = none →
      load_state (FileContent.valid (JValue.obj fields)) = none) ∧
    (jlookup fields "status" = none →
      load_state (FileContent.valid (JValue.obj fields)) = none) ∧
    (jlookup fields "recovery_attempts" = none →
      load_state (FileContent.valid (JValue.obj fields)) = none) ∧
    (jlookup fields "last_activity" = none →
      load_state (FileContent.valid (JValue.obj fields)) = none) := by
  refine ⟨?_, ?_, ?_, ?_, ?_⟩ <;> intro h <;>
    cases e1 : jlookup fields "task_id" <;>
      cases e2 : jlookup fields "status" <;>
        cases e3 : jlookup fields "recovery_attempts" <;>
          cases e4 : jlookup fields "last_activity" <;>
            simp_all [load_state, load_from_json]

def exFields : List (String × JValue) :=
  [("task_id", JValue.str "T"), ("status", JValue.str "ready"),
   ("recovery_attempts", JValue.num 0), ("last_activity", JValue.str "x")]

theorem load_state_failure_reason_optional_witness :
    ∃ d : DynTaskState,
      load_state (FileContent.valid (JValue.obj exFields)) = some d ∧
      d.failure_reason = JValue.null :=
  (load_state_failure_reason_optional exFields).1 ⟨rfl, rfl, rfl, rfl, rfl⟩

/-- C9: for a task with no worktree directory, a successful
touch_activity call creates base_dir/.worktrees/task_id as the parent
of the marker file, so worktree_exists reports the worktree as present
afterward even though no git worktree was created. -/
theorem touch_activity_creates_worktree_dir
    (fs : Fs) (base_dir : FsPath) (task_id : String)
    (h : worktree_exists fs base_dir task_id = false) :
    (touch_activity fs base_dir task_id true).1 = true ∧
    worktree_exists (touch_activity fs base_dir task_id true).2 base_dir task_id = true := by
  constructor
  · rfl
  · simp [touch_activity, worktree_exists, path_exists, List.contains_cons]

theorem touch_activity_creates_worktree_dir_witness :
    (touch_activity [] ["proj"] "T9" true).1 = true ∧
    worktree_exists (touch_activity [] ["proj"] "T9" true).2 ["proj"] "T9" = true :=
  touch_activity_creates_worktree_dir [] ["proj"] "T9" rfl
